import Mathlib

/-!
Verification development for the `boxplot_research` repository.

The repository's stimulus generator (`842_image.py`) is a single-pass batch
pipeline over numpy's globally seeded pseudo-random stream: it synthesizes 16
data sets (4 trial types x 4 instances, each optionally left/right-swapped by
one extra random draw), then renders 8 presentation conditions per data set,
writing one CSV row and one image file per combination (128 in total).

Modelling conventions for the shallow embedding:

* Python floats are modelled as exact rationals (`ℚ`).
* numpy's seeded global generator is modelled as an abstract entropy stream
  `u : Nat → ℚ` of "raw" standard draws together with a position; every
  consuming call advances the position deterministically.  `np.random.normal
  (mu, sigma, n)` consumes `n` raws `z` and returns `mu + sigma * z` for each;
  `np.random.rand()` consumes one raw.  `np.random.gamma(2, 1, n)` consumes
  `n` raws and applies an abstract transform `gam : ℚ → ℚ` (the shape-2
  scale-1 sampler), which is a parameter of the whole model: none of the
  verified properties depend on the gamma sampler's actual values.
* The sample standard deviation `np.std(xs, ddof=1)` is an irrational square
  root; the pipeline carries its exact square (the `ddof=1` sample variance)
  and compares / formats through it.  Since `Real.sqrt` is strictly monotone
  on nonnegatives, comparing variances is equivalent to comparing standard
  deviations (proved below as `moreVariable_left_iff` etc. in the C2 theorem),
  and the 3-decimal formatted value of the standard deviation is recovered
  computably by `sdMilli` (the integer of thousandths, characterised against
  `Real.sqrt` in the C8 theorem).
* File writing is not modelled; the CSV content is the list of its rows and
  the renderer's observable output is the produced filename plus its stream
  consumption.
-/

namespace Boxplot

/-- State of the shared pseudo-random stream: the raw draw sequence fixed by
the seed, and the current position. -/
structure RNG where
  stream : Nat → ℚ
  pos : Nat

/-- Consume one raw draw (models `np.random.rand()` up to its distribution). -/
def draw (r : RNG) : ℚ × RNG :=
  (r.stream r.pos, ⟨r.stream, r.pos + 1⟩)

/-- Consume `n` raw draws. -/
def drawN (n : Nat) (r : RNG) : List ℚ × RNG :=
  ((List.range n).map (fun i => r.stream (r.pos + i)), ⟨r.stream, r.pos + n⟩)

/-- Model of `np.random.normal(mu, sigma, n)`: `n` raws `z` give `mu + sigma * z`. -/
def npNormal (mu sigma : ℚ) (n : Nat) (r : RNG) : List ℚ × RNG :=
  let p := drawN n r
  (p.1.map (fun z => mu + sigma * z), p.2)

/-- Model of `np.random.gamma(shape=2.0, scale=1.0, size=n)`: `n` raws pushed
through the abstract gamma sampler `gam`. -/
def npGamma (gam : ℚ → ℚ) (n : Nat) (r : RNG) : List ℚ × RNG :=
  let p := drawN n r
  (p.1.map gam, p.2)

/-- The four trial-type recipes of `trial_types` in the source. -/
inductive TrialType where
  | differentSDs
  | outlierVsNoOutlier
  | skewVsSymmetric
  | unequalSampleSize
deriving DecidableEq

/-- The string label of each trial type, exactly as in the source list
`trial_types = ["Different SDs", "Outlier vs No-Outlier", "Skew vs Symmetric",
"Unequal Sample Size"]`. -/
def TrialType.label : TrialType → String
  | .differentSDs => "Different SDs"
  | .outlierVsNoOutlier => "Outlier vs No-Outlier"
  | .skewVsSymmetric => "Skew vs Symmetric"
  | .unequalSampleSize => "Unequal Sample Size"

/-- The source's `trial_types` list, in order. -/
def trial_types : List TrialType :=
  [.differentSDs, .outlierVsNoOutlier, .skewVsSymmetric, .unequalSampleSize]

/-- Embedding of `generate_trial_data(trial_type)` from `842_image.py`.
`mu = 5`; each branch mirrors the source's draws in order.  The
"Outlier vs No-Outlier" branch appends the five fixed extreme offsets
`[mu+8, mu+10, mu-8, mu-10, mu+12]` to the 50 base normal draws; the
"Skew vs Symmetric" branch shifts the gamma samples by `mu - 2`. -/
def generate_trial_data (gam : ℚ → ℚ) (tt : TrialType) (r : RNG) :
    (List ℚ × List ℚ) × RNG :=
  let mu : ℚ := 5
  match tt with
  | .differentSDs =>
    let pl := npNormal mu 1 50 r
    let pr := npNormal mu 2 50 pl.2
    ((pl.1, pr.1), pr.2)
  | .outlierVsNoOutlier =>
    let pl := npNormal mu 1 50 r
    let left := pl.1 ++ [mu + 8, mu + 10, mu - 8, mu - 10, mu + 12]
    let pr := npNormal mu (6/5) 50 pl.2
    ((left, pr.1), pr.2)
  | .skewVsSymmetric =>
    let pg := npGamma gam 50 r
    let left := pg.1.map (fun x => x + (mu - 2))
    let pr := npNormal mu 1 50 pg.2
    ((left, pr.1), pr.2)
  | .unequalSampleSize =>
    let pl := npNormal mu 1 80 r
    let pr := npNormal mu (6/5) 20 pl.2
    ((pl.1, pr.1), pr.2)

/-- One presentation condition: the `(jitter, whisker, points)` string triple
of the source's `conditions` list. -/
structure Condition where
  jitter : String
  whisker : String
  points : String
deriving DecidableEq

/-- The source's fixed, ordered `conditions` list of 8 triples. -/
def conditions : List Condition :=
  [⟨"Jitter On", "Tukey", "Points On"⟩,
   ⟨"Jitter On", "Tukey", "Points Off"⟩,
   ⟨"Jitter On", "MinMax", "Points On"⟩,
   ⟨"Jitter On", "MinMax", "Points Off"⟩,
   ⟨"Jitter Off", "Tukey", "Points On"⟩,
   ⟨"Jitter Off", "Tukey", "Points Off"⟩,
   ⟨"Jitter Off", "MinMax", "Points On"⟩,
   ⟨"Jitter Off", "MinMax", "Points Off"⟩]

/-- Arithmetic mean of a list of rationals (`np.mean`, used inside `np.std`). -/
def mean (xs : List ℚ) : ℚ := xs.sum / (xs.length : ℚ)

/-- Sum of squared deviations from a given center. -/
def sumSqDevFrom (m : ℚ) (xs : List ℚ) : ℚ :=
  (xs.map (fun x => (x - m) ^ 2)).sum

/-- The square of `np.std(xs, ddof=1)`: the sample variance with an `n - 1`
denominator.  The pipeline carries this exact value; the (irrational)
standard deviation itself is `Real.sqrt` of it. -/
def sampleVar (xs : List ℚ) : ℚ :=
  sumSqDevFrom (mean xs) xs / ((xs.length : ℚ) - 1)

/-- Fuel-driven Newton iteration for the integer square root; structurally
recursive so that it evaluates inside the kernel. -/
def isqrtIter (n : Nat) : Nat → Nat → Nat
  | 0, guess => guess
  | fuel + 1, guess =>
    let next := (guess + n / guess) / 2
    if next < guess then isqrtIter n fuel next else guess

/-- Executable integer square root, proved equal to `Nat.sqrt` below. -/
def isqrt (n : Nat) : Nat :=
  if n ≤ 1 then n else isqrtIter n n (n / 2)

/-- Recorded standard deviation in thousandths: given the exact sample
variance `v`, this is `round(1000 * sqrt v)` (ties rounded up), i.e. the
integer `m` such that the source's `f"{sd:.3f}"` prints `m / 1000` with three
decimals.  Computed exactly via the integer square root of `⌊4000000 * v⌋`. -/
def sdMilli (v : ℚ) : Nat :=
  (isqrt (4000000 * v).floor.toNat + 1) / 2

/-- Left-pad a sub-thousand numeral to width 3 (the fractional digits of a
3-decimal format). -/
def pad3 (n : Nat) : String :=
  if n < 10 then "00" ++ toString n
  else if n < 100 then "0" ++ toString n
  else toString n

/-- Render a thousandths integer the way `f"{x:.3f}"` prints the nonnegative
value it encodes: integer part, a dot, and exactly three fractional digits. -/
def fmt3 (m : Nat) : String :=
  toString (m / 1000) ++ "." ++ pad3 (m % 1000)

/-- The source's `more_var` computation.  The source compares the two
standard deviations (`left_sd > right_sd`); since both are square roots of
the nonnegative sample variances and `Real.sqrt` is strictly monotone there,
this is embedded as the equivalent comparison of the exact variances. -/
def moreVariable (vl vr : ℚ) : String :=
  if vr < vl then "Left" else if vl < vr then "Right" else "Equal"

/-- Replace every space by an underscore (`.replace(' ', '_')` in the source). -/
def underscoreSpaces (s : String) : String :=
  String.mk (s.data.map (fun ch => if ch = ' ' then '_' else ch))

/-- Remove every space (`.replace(' ', '')` in the source). -/
def stripSpaces (s : String) : String :=
  String.mk (s.data.filter (fun ch => ch != ' '))

/-- The filename built by `plot_trial`:
`f"{trial_idx}_{trial_type.replace(' ', '_')}_{jitter.replace(' ','')}_{whisker}_{points.replace(' ', '')}.png"`. -/
def mkFilename (idx : Nat) (ttLabel jitter whisker points : String) : String :=
  toString idx ++ "_" ++ underscoreSpaces ttLabel ++ "_" ++ stripSpaces jitter
    ++ "_" ++ whisker ++ "_" ++ stripSpaces points ++ ".png"

/-- Embedding of `plot_trial`'s observable behavior: the saved filename, plus
the stream consumption of the jitter overlay (when points are on and jitter
is on, `np.random.normal(position, 0.05, len(data))` is drawn once per side).
Drawing geometry is not modelled; the jitter draws are consumed and
discarded exactly as the image pixels are. -/
def plot_trial (left right : List ℚ) (c : Condition) (tt : TrialType)
    (trial_idx : Nat) (r : RNG) : String × RNG :=
  let r1 := if c.points = "Points On" then
      (if c.jitter = "Jitter On" then (npNormal 1 (1/20) left.length r).2 else r)
    else r
  let r2 := if c.points = "Points On" then
      (if c.jitter = "Jitter On" then (npNormal 2 (1/20) right.length r1).2 else r1)
    else r1
  (mkFilename trial_idx tt.label c.jitter c.whisker c.points, r2)

/-- One stored data set: the `(trial_type, instance)` key of the source's
`data_sets` dict together with the two (possibly swapped) sequences. -/
structure Entry where
  type : TrialType
  inst : Nat
  left : List ℚ
  right : List ℚ
deriving DecidableEq

/-- Generation of a single data set: draw via `generate_trial_data`, then
swap left and right when one further draw exceeds 1/2
(`if np.random.rand() > 0.5`). -/
def genOne (gam : ℚ → ℚ) (k : TrialType × Nat) (r : RNG) : Entry × RNG :=
  let p := generate_trial_data gam k.1 r
  let c := draw p.2
  let pair := if 1/2 < c.1 then (p.1.2, p.1.1) else p.1
  (⟨k.1, k.2, pair.1, pair.2⟩, c.2)

/-- State-threading map over a list: the shared stream is consumed left to
right, exactly like the source's sequential loops. -/
def statefulMap {α β : Type} (f : α → RNG → β × RNG) : List α → RNG → List β × RNG
  | [], r => ([], r)
  | a :: as, r =>
    let p := f a r
    let q := statefulMap f as p.2
    (p.1 :: q.1, q.2)

/-- The source's `num_instances_per_trial_type`. -/
def num_instances_per_trial_type : Nat := 4

/-- The iteration order of the source's nested generation loops:
`for trial_type in trial_types: for instance in range(4)`. -/
def allKeys : List (TrialType × Nat) :=
  trial_types.flatMap (fun tt =>
    (List.range num_instances_per_trial_type).map (fun i => (tt, i)))

/-- Embedding of the "Generate data sets first" loop of the source. -/
def gen_data_sets (gam : ℚ → ℚ) (r : RNG) : List Entry × RNG :=
  statefulMap (genOne gam) allKeys r

/-- One CSV data row.  `varL` and `varR` are the exact sample variances the
pipeline carries for the data set (the squares of `left_sd` / `right_sd`);
the recorded 3-decimal strings are recovered by `Row.csvLine`. -/
structure Row where
  idx : Nat
  trialType : String
  inst : Nat
  jitter : String
  whisker : String
  points : String
  varL : ℚ
  varR : ℚ
  moreVar : String
deriving DecidableEq

/-- The recorded `Left_SD` value in thousandths. -/
def Row.leftSD (row : Row) : Nat := sdMilli row.varL

/-- The recorded `Right_SD` value in thousandths. -/
def Row.rightSD (row : Row) : Nat := sdMilli row.varR

/-- The nine CSV fields of a data row, as written by `writer.writerow`. -/
def Row.csvLine (row : Row) : List String :=
  [toString row.idx, row.trialType, toString row.inst, row.jitter, row.whisker,
   row.points, fmt3 row.leftSD, fmt3 row.rightSD, row.moreVar]

/-- The inner condition loop of the CSV block: for each condition, write one
row and save one figure, incrementing `trial_idx` by one per image. -/
def condLoop (tt : TrialType) (instIdx : Nat) (left right : List ℚ)
    (vl vr : ℚ) (mv : String) :
    List Condition → Nat → RNG → (List Row × List String) × Nat × RNG
  | [], idx, r => (([], []), idx, r)
  | c :: cs, idx, r =>
    let row : Row :=
      ⟨idx, tt.label, instIdx, c.jitter, c.whisker, c.points, vl, vr, mv⟩
    let pf := plot_trial left right c tt idx r
    let rest := condLoop tt instIdx left right vl vr mv cs (idx + 1) pf.2
    ((row :: rest.1.1, pf.1 :: rest.1.2), rest.2)

/-- The outer CSV loop: per data set, compute the two sample statistics once,
derive `more_var`, then run all 8 conditions on the same data. -/
def dsLoop : List Entry → Nat → RNG → (List Row × List String) × Nat × RNG
  | [], idx, r => (([], []), idx, r)
  | e :: es, idx, r =>
    let vl := sampleVar e.left
    let vr := sampleVar e.right
    let mv := moreVariable vl vr
    let b := condLoop e.type e.inst e.left e.right vl vr mv conditions idx r
    let rest := dsLoop es b.2.1 b.2.2
    ((b.1.1 ++ rest.1.1, b.1.2 ++ rest.1.2), rest.2)

/-- The whole program run, as a function of the abstract gamma sampler and
the raw entropy stream fixed by `np.random.seed(2025)`: the stored data
sets, the CSV data rows, and the saved image filenames, in order. -/
def runAll (gam : ℚ → ℚ) (u : Nat → ℚ) : List Entry × List Row × List String :=
  let p := gen_data_sets gam ⟨u, 0⟩
  let q := dsLoop p.1 1 p.2
  (p.1, q.1.1, q.1.2)

/-- The stored data sets of a run. -/
def runDataSets (gam : ℚ → ℚ) (u : Nat → ℚ) : List Entry := (runAll gam u).1

/-- The CSV data rows of a run. -/
def runRows (gam : ℚ → ℚ) (u : Nat → ℚ) : List Row := (runAll gam u).2.1

/-- The saved image filenames of a run. -/
def runFiles (gam : ℚ → ℚ) (u : Nat → ℚ) : List String := (runAll gam u).2.2

/-- The fixed 9-column CSV header written before the data rows. -/
def csvHeader : List String :=
  ["TrialIdx", "TrialType", "Instance", "Jitter", "Whisker", "Points",
   "Left_SD", "Right_SD", "More_Variable"]

/-- The full CSV content of a run: header line then one line per data row. -/
def csvTable (gam : ℚ → ℚ) (u : Nat → ℚ) : List (List String) :=
  csvHeader :: (runRows gam u).map Row.csvLine

/-- Embedding of `extract_element_ids(html_file)` from `extract_element_ids.py`.
The body of its `try` block (open the file, read it, feed the content to the
`HTMLParser`) is modelled by its outcome: `Except.error` when any exception is
raised while opening/reading/parsing, `Except.ok content` on success.  The
accumulation of the `ElementIDExtractor` over the successfully read content is
abstracted as the function `parse`, since the claims under verification
concern only the failure path. -/
def extract_element_ids (parse : String → List String)
    (readResult : Except String String) : List String :=
  match readResult with
  | Except.error _ => []
  | Except.ok content => parse content

/-- Modelled from the spec: the image filename grammar
`{index}_{trial_type_with_underscores}_{jitter_no_space}_{whisker}_{points_no_space}.png`. -/
def specFilename (idx : Nat) (ttLabel jitter whisker points : String) : String :=
  toString idx ++ "_" ++ underscoreSpaces ttLabel ++ "_" ++ stripSpaces jitter
    ++ "_" ++ whisker ++ "_" ++ stripSpaces points ++ ".png"

/-- The filename a CSV row's trial renders to, per the spec grammar. -/
def rowFilename (row : Row) : String :=
  specFilename row.idx row.trialType row.jitter row.whisker row.points

/-- Modelled from the spec: the sample (unbiased, `n - 1` denominator)
variance — the square of the sample standard deviation the spec records. -/
def specSampleVar (xs : List ℚ) : ℚ :=
  (xs.map (fun x => (x - xs.sum / (xs.length : ℚ)) ^ 2)).sum / ((xs.length : ℚ) - 1)

/-- Modelled from the spec: the "Unequal Sample Size" recipe as the spec
states it — both sequences normal with the same mean and the same spread
parameter `sigma`, with unequal counts 80 and 20. -/
def unequalSpecGen (sigma : ℚ) (r : RNG) : (List ℚ × List ℚ) × RNG :=
  let pl := npNormal 5 sigma 80 r
  let pr := npNormal 5 sigma 20 pl.2
  ((pl.1, pr.1), pr.2)

/-- The amended "Unequal Sample Size" recipe: same mean, spread parameters
`1.0` (count 80) and `1.2` (count 20). -/
def unequalAmendedGen (r : RNG) : (List ℚ × List ℚ) × RNG :=
  let pl := npNormal 5 1 80 r
  let pr := npNormal 5 (6/5) 20 pl.2
  ((pl.1, pr.1), pr.2)

/-- Pure computation of the filenames the condition loop emits for one data
set: one per condition, indices increasing by one. -/
def condFiles (tt : TrialType) : List Condition → Nat → List String
  | [], _ => []
  | c :: cs, idx =>
    mkFilename idx tt.label c.jitter c.whisker c.points :: condFiles tt cs (idx + 1)

/-- Pure computation of the whole run's filenames from the data-set keys
alone: 8 filenames per key, index advancing by 8 per data set. -/
def dsFiles : List (TrialType × Nat) → Nat → List String
  | [], _ => []
  | k :: ks, idx => condFiles k.1 conditions idx ++ dsFiles ks (idx + 8)

/-- A degenerate gamma sampler used for concrete witness runs. -/
def gam0 : ℚ → ℚ := fun _ => 0

/-- The all-zero entropy stream: every normal draw lands on its mean and no
data set is swapped. -/
def u0 : Nat → ℚ := fun _ => 0

/-- A concrete entropy stream exhibiting the recorded-value tie: the first
data set ("Different SDs", instance 0) gets left standard deviation exactly
`2501/2500 = 1.0004` and right standard deviation exactly
`10001/10000 = 1.0001`, both of which print as `1.000`, while the comparison
of the exact values yields `"Left"`. -/
def cu : Nat → ℚ := fun n =>
  if n = 0 ∨ n = 2 then 17507/5000
  else if n = 1 ∨ n = 3 then -(17507/5000)
  else if n = 50 ∨ n = 52 then 70007/40000
  else if n = 51 ∨ n = 53 then -(70007/40000)
  else 0

/-- The first CSV row of the all-zero run. -/
def row0 : Row :=
  ⟨1, "Different SDs", 0, "Jitter On", "Tukey", "Points On", 0, 0, "Equal"⟩

/-- The first "Unequal Sample Size" data set of the all-zero run. -/
def entryUnequal0 : Entry :=
  ⟨.unequalSampleSize, 0, List.replicate 80 5, List.replicate 20 5⟩

/-- The first "Outlier vs No-Outlier" data set of the all-zero run. -/
def entryOutlier0 : Entry :=
  ⟨.outlierVsNoOutlier, 0, List.replicate 50 5 ++ [13, 15, -3, -5, 17],
   List.replicate 50 5⟩

/-- The concrete list of the 128 filenames every run produces, in order. -/
def filesList : List String :=
  [
   "1_Different_SDs_JitterOn_Tukey_PointsOn.png",
   "2_Different_SDs_JitterOn_Tukey_PointsOff.png",
   "3_Different_SDs_JitterOn_MinMax_PointsOn.png",
   "4_Different_SDs_JitterOn_MinMax_PointsOff.png",
   "5_Different_SDs_JitterOff_Tukey_PointsOn.png",
   "6_Different_SDs_JitterOff_Tukey_PointsOff.png",
   "7_Different_SDs_JitterOff_MinMax_PointsOn.png",
   "8_Different_SDs_JitterOff_MinMax_PointsOff.png",
   "9_Different_SDs_JitterOn_Tukey_PointsOn.png",
   "10_Different_SDs_JitterOn_Tukey_PointsOff.png",
   "11_Different_SDs_JitterOn_MinMax_PointsOn.png",
   "12_Different_SDs_JitterOn_MinMax_PointsOff.png",
   "13_Different_SDs_JitterOff_Tukey_PointsOn.png",
   "14_Different_SDs_JitterOff_Tukey_PointsOff.png",
   "15_Different_SDs_JitterOff_MinMax_PointsOn.png",
   "16_Different_SDs_JitterOff_MinMax_PointsOff.png",
   "17_Different_SDs_JitterOn_Tukey_PointsOn.png",
   "18_Different_SDs_JitterOn_Tukey_PointsOff.png",
   "19_Different_SDs_JitterOn_MinMax_PointsOn.png",
   "20_Different_SDs_JitterOn_MinMax_PointsOff.png",
   "21_Different_SDs_JitterOff_Tukey_PointsOn.png",
   "22_Different_SDs_JitterOff_Tukey_PointsOff.png",
   "23_Different_SDs_JitterOff_MinMax_PointsOn.png",
   "24_Different_SDs_JitterOff_MinMax_PointsOff.png",
   "25_Different_SDs_JitterOn_Tukey_PointsOn.png",
   "26_Different_SDs_JitterOn_Tukey_PointsOff.png",
   "27_Different_SDs_JitterOn_MinMax_PointsOn.png",
   "28_Different_SDs_JitterOn_MinMax_PointsOff.png",
   "29_Different_SDs_JitterOff_Tukey_PointsOn.png",
   "30_Different_SDs_JitterOff_Tukey_PointsOff.png",
   "31_Different_SDs_JitterOff_MinMax_PointsOn.png",
   "32_Different_SDs_JitterOff_MinMax_PointsOff.png",
   "33_Outlier_vs_No-Outlier_JitterOn_Tukey_PointsOn.png",
   "34_Outlier_vs_No-Outlier_JitterOn_Tukey_PointsOff.png",
   "35_Outlier_vs_No-Outlier_JitterOn_MinMax_PointsOn.png",
   "36_Outlier_vs_No-Outlier_JitterOn_MinMax_PointsOff.png",
   "37_Outlier_vs_No-Outlier_JitterOff_Tukey_PointsOn.png",
   "38_Outlier_vs_No-Outlier_JitterOff_Tukey_PointsOff.png",
   "39_Outlier_vs_No-Outlier_JitterOff_MinMax_PointsOn.png",
   "40_Outlier_vs_No-Outlier_JitterOff_MinMax_PointsOff.png",
   "41_Outlier_vs_No-Outlier_JitterOn_Tukey_PointsOn.png",
   "42_Outlier_vs_No-Outlier_JitterOn_Tukey_PointsOff.png",
   "43_Outlier_vs_No-Outlier_JitterOn_MinMax_PointsOn.png",
   "44_Outlier_vs_No-Outlier_JitterOn_MinMax_PointsOff.png",
   "45_Outlier_vs_No-Outlier_JitterOff_Tukey_PointsOn.png",
   "46_Outlier_vs_No-Outlier_JitterOff_Tukey_PointsOff.png",
   "47_Outlier_vs_No-Outlier_JitterOff_MinMax_PointsOn.png",
   "48_Outlier_vs_No-Outlier_JitterOff_MinMax_PointsOff.png",
   "49_Outlier_vs_No-Outlier_JitterOn_Tukey_PointsOn.png",
   "50_Outlier_vs_No-Outlier_JitterOn_Tukey_PointsOff.png",
   "51_Outlier_vs_No-Outlier_JitterOn_MinMax_PointsOn.png",
   "52_Outlier_vs_No-Outlier_JitterOn_MinMax_PointsOff.png",
   "53_Outlier_vs_No-Outlier_JitterOff_Tukey_PointsOn.png",
   "54_Outlier_vs_No-Outlier_JitterOff_Tukey_PointsOff.png",
   "55_Outlier_vs_No-Outlier_JitterOff_MinMax_PointsOn.png",
   "56_Outlier_vs_No-Outlier_JitterOff_MinMax_PointsOff.png",
   "57_Outlier_vs_No-Outlier_JitterOn_Tukey_PointsOn.png",
   "58_Outlier_vs_No-Outlier_JitterOn_Tukey_PointsOff.png",
   "59_Outlier_vs_No-Outlier_JitterOn_MinMax_PointsOn.png",
   "60_Outlier_vs_No-Outlier_JitterOn_MinMax_PointsOff.png",
   "61_Outlier_vs_No-Outlier_JitterOff_Tukey_PointsOn.png",
   "62_Outlier_vs_No-Outlier_JitterOff_Tukey_PointsOff.png",
   "63_Outlier_vs_No-Outlier_JitterOff_MinMax_PointsOn.png",
   "64_Outlier_vs_No-Outlier_JitterOff_MinMax_PointsOff.png",
   "65_Skew_vs_Symmetric_JitterOn_Tukey_PointsOn.png",
   "66_Skew_vs_Symmetric_JitterOn_Tukey_PointsOff.png",
   "67_Skew_vs_Symmetric_JitterOn_MinMax_PointsOn.png",
   "68_Skew_vs_Symmetric_JitterOn_MinMax_PointsOff.png",
   "69_Skew_vs_Symmetric_JitterOff_Tukey_PointsOn.png",
   "70_Skew_vs_Symmetric_JitterOff_Tukey_PointsOff.png",
   "71_Skew_vs_Symmetric_JitterOff_MinMax_PointsOn.png",
   "72_Skew_vs_Symmetric_JitterOff_MinMax_PointsOff.png",
   "73_Skew_vs_Symmetric_JitterOn_Tukey_PointsOn.png",
   "74_Skew_vs_Symmetric_JitterOn_Tukey_PointsOff.png",
   "75_Skew_vs_Symmetric_JitterOn_MinMax_PointsOn.png",
   "76_Skew_vs_Symmetric_JitterOn_MinMax_PointsOff.png",
   "77_Skew_vs_Symmetric_JitterOff_Tukey_PointsOn.png",
   "78_Skew_vs_Symmetric_JitterOff_Tukey_PointsOff.png",
   "79_Skew_vs_Symmetric_JitterOff_MinMax_PointsOn.png",
   "80_Skew_vs_Symmetric_JitterOff_MinMax_PointsOff.png",
   "81_Skew_vs_Symmetric_JitterOn_Tukey_PointsOn.png",
   "82_Skew_vs_Symmetric_JitterOn_Tukey_PointsOff.png",
   "83_Skew_vs_Symmetric_JitterOn_MinMax_PointsOn.png",
   "84_Skew_vs_Symmetric_JitterOn_MinMax_PointsOff.png",
   "85_Skew_vs_Symmetric_JitterOff_Tukey_PointsOn.png",
   "86_Skew_vs_Symmetric_JitterOff_Tukey_PointsOff.png",
   "87_Skew_vs_Symmetric_JitterOff_MinMax_PointsOn.png",
   "88_Skew_vs_Symmetric_JitterOff_MinMax_PointsOff.png",
   "89_Skew_vs_Symmetric_JitterOn_Tukey_PointsOn.png",
   "90_Skew_vs_Symmetric_JitterOn_Tukey_PointsOff.png",
   "91_Skew_vs_Symmetric_JitterOn_MinMax_PointsOn.png",
   "92_Skew_vs_Symmetric_JitterOn_MinMax_PointsOff.png",
   "93_Skew_vs_Symmetric_JitterOff_Tukey_PointsOn.png",
   "94_Skew_vs_Symmetric_JitterOff_Tukey_PointsOff.png",
   "95_Skew_vs_Symmetric_JitterOff_MinMax_PointsOn.png",
   "96_Skew_vs_Symmetric_JitterOff_MinMax_PointsOff.png",
   "97_Unequal_Sample_Size_JitterOn_Tukey_PointsOn.png",
   "98_Unequal_Sample_Size_JitterOn_Tukey_PointsOff.png",
   "99_Unequal_Sample_Size_JitterOn_MinMax_PointsOn.png",
   "100_Unequal_Sample_Size_JitterOn_MinMax_PointsOff.png",
   "101_Unequal_Sample_Size_JitterOff_Tukey_PointsOn.png",
   "102_Unequal_Sample_Size_JitterOff_Tukey_PointsOff.png",
   "103_Unequal_Sample_Size_JitterOff_MinMax_PointsOn.png",
   "104_Unequal_Sample_Size_JitterOff_MinMax_PointsOff.png",
   "105_Unequal_Sample_Size_JitterOn_Tukey_PointsOn.png",
   "106_Unequal_Sample_Size_JitterOn_Tukey_PointsOff.png",
   "107_Unequal_Sample_Size_JitterOn_MinMax_PointsOn.png",
   "108_Unequal_Sample_Size_JitterOn_MinMax_PointsOff.png",
   "109_Unequal_Sample_Size_JitterOff_Tukey_PointsOn.png",
   "110_Unequal_Sample_Size_JitterOff_Tukey_PointsOff.png",
   "111_Unequal_Sample_Size_JitterOff_MinMax_PointsOn.png",
   "112_Unequal_Sample_Size_JitterOff_MinMax_PointsOff.png",
   "113_Unequal_Sample_Size_JitterOn_Tukey_PointsOn.png",
   "114_Unequal_Sample_Size_JitterOn_Tukey_PointsOff.png",
   "115_Unequal_Sample_Size_JitterOn_MinMax_PointsOn.png",
   "116_Unequal_Sample_Size_JitterOn_MinMax_PointsOff.png",
   "117_Unequal_Sample_Size_JitterOff_Tukey_PointsOn.png",
   "118_Unequal_Sample_Size_JitterOff_Tukey_PointsOff.png",
   "119_Unequal_Sample_Size_JitterOff_MinMax_PointsOn.png",
   "120_Unequal_Sample_Size_JitterOff_MinMax_PointsOff.png",
   "121_Unequal_Sample_Size_JitterOn_Tukey_PointsOn.png",
   "122_Unequal_Sample_Size_JitterOn_Tukey_PointsOff.png",
   "123_Unequal_Sample_Size_JitterOn_MinMax_PointsOn.png",
   "124_Unequal_Sample_Size_JitterOn_MinMax_PointsOff.png",
   "125_Unequal_Sample_Size_JitterOff_Tukey_PointsOn.png",
   "126_Unequal_Sample_Size_JitterOff_Tukey_PointsOff.png",
   "127_Unequal_Sample_Size_JitterOff_MinMax_PointsOn.png",
   "128_Unequal_Sample_Size_JitterOff_MinMax_PointsOff.png"]

theorem npNormal_length (mu sigma : ℚ) (n : Nat) (r : RNG) :
    (npNormal mu sigma n r).1.length = n := by
  simp [npNormal, drawN]

theorem statefulMap_length {α β : Type} (f : α → RNG → β × RNG) (as : List α) :
    ∀ r : RNG, (statefulMap f as r).1.length = as.length := by
  induction as with
  | nil => intro r; rfl
  | cons a as ih => intro r; simp [statefulMap, ih]

theorem statefulMap_mem {α β : Type} (f : α → RNG → β × RNG) (as : List α) :
    ∀ (r : RNG) (b : β), b ∈ (statefulMap f as r).1 → ∃ a ∈ as, ∃ s : RNG, b = (f a s).1 := by
  induction as with
  | nil => intro r b hb; simp [statefulMap] at hb
  | cons a as ih =>
    intro r b hb
    simp only [statefulMap, List.mem_cons] at hb
    rcases hb with hb | hb
    · exact ⟨a, List.mem_cons_self a as, r, hb⟩
    · obtain ⟨a2, ha2, s, hs⟩ := ih (f a r).2 b hb
      exact ⟨a2, List.mem_cons_of_mem a ha2, s, hs⟩

theorem statefulMap_map_key {α β : Type} (f : α → RNG → β × RNG) (g : β → α)
    (hg : ∀ (a : α) (r : RNG), g (f a r).1 = a) (as : List α) :
    ∀ r : RNG, (statefulMap f as r).1.map g = as := by
  induction as with
  | nil => intro r; rfl
  | cons a as ih => intro r; simp [statefulMap, hg, ih]

theorem conditions_length : conditions.length = 8 := rfl

theorem condLoop_idx (tt : TrialType) (instIdx : Nat) (left right : List ℚ)
    (vl vr : ℚ) (mv : String) (cs : List Condition) :
    ∀ (idx : Nat) (r : RNG),
      (condLoop tt instIdx left right vl vr mv cs idx r).2.1 = idx + cs.length := by
  induction cs with
  | nil => intro idx r; rfl
  | cons c cs ih => intro idx r; simp [condLoop, ih]; omega

theorem condLoop_rows_idx (tt : TrialType) (instIdx : Nat) (left right : List ℚ)
    (vl vr : ℚ) (mv : String) (cs : List Condition) :
    ∀ (idx : Nat) (r : RNG),
      ((condLoop tt instIdx left right vl vr mv cs idx r).1.1).map Row.idx
        = List.range' idx cs.length := by
  induction cs with
  | nil => intro idx r; rfl
  | cons c cs ih => intro idx r; simp [condLoop, List.range'_succ, ih]

theorem condLoop_files_map (tt : TrialType) (instIdx : Nat) (left right : List ℚ)
    (vl vr : ℚ) (mv : String) (cs : List Condition) :
    ∀ (idx : Nat) (r : RNG),
      (condLoop tt instIdx left right vl vr mv cs idx r).1.2
        = ((condLoop tt instIdx left right vl vr mv cs idx r).1.1).map rowFilename := by
  induction cs with
  | nil => intro idx r; rfl
  | cons c cs ih =>
    intro idx r
    simp [condLoop, ih, plot_trial, rowFilename, specFilename, mkFilename]

theorem condLoop_files_pure (tt : TrialType) (instIdx : Nat) (left right : List ℚ)
    (vl vr : ℚ) (mv : String) (cs : List Condition) :
    ∀ (idx : Nat) (r : RNG),
      (condLoop tt instIdx left right vl vr mv cs idx r).1.2 = condFiles tt cs idx := by
  induction cs with
  | nil => intro idx r; rfl
  | cons c cs ih => intro idx r; simp [condLoop, condFiles, ih, plot_trial]

theorem condLoop_rows_fields (tt : TrialType) (instIdx : Nat) (left right : List ℚ)
    (vl vr : ℚ) (mv : String) (cs : List Condition) :
    ∀ (idx : Nat) (r : RNG), ∀ row ∈ (condLoop tt instIdx left right vl vr mv cs idx r).1.1,
      row.trialType = tt.label ∧ row.inst = instIdx ∧ row.varL = vl ∧ row.varR = vr ∧
        row.moreVar = mv := by
  induction cs with
  | nil => intro idx r row hrow; simp [condLoop] at hrow
  | cons c cs ih =>
    intro idx r row hrow
    simp only [condLoop, List.mem_cons] at hrow
    rcases hrow with hrow | hrow
    · subst hrow; exact ⟨rfl, rfl, rfl, rfl, rfl⟩
    · exact ih (idx + 1) _ row hrow

theorem dsLoop_idx (es : List Entry) :
    ∀ (idx : Nat) (r : RNG), (dsLoop es idx r).2.1 = idx + 8 * es.length := by
  induction es with
  | nil => intro idx r; simp [dsLoop]
  | cons e es ih =>
    intro idx r
    simp [dsLoop, condLoop_idx, ih, conditions_length]
    omega

theorem dsLoop_rows_idx (es : List Entry) :
    ∀ (idx : Nat) (r : RNG),
      ((dsLoop es idx r).1.1).map Row.idx = List.range' idx (8 * es.length) := by
  induction es with
  | nil => intro idx r; simp [dsLoop]
  | cons e es ih =>
    intro idx r
    simp only [dsLoop, List.map_append, condLoop_rows_idx, condLoop_idx, ih,
      conditions_length, List.length_cons]
    rw [show 8 * (es.length + 1) = 8 * es.length + 8 from by omega]
    exact List.range'_append_1 idx 8 (8 * es.length)

theorem dsLoop_files_map (es : List Entry) :
    ∀ (idx : Nat) (r : RNG),
      (dsLoop es idx r).1.2 = ((dsLoop es idx r).1.1).map rowFilename := by
  induction es with
  | nil => intro idx r; rfl
  | cons e es ih => intro idx r; simp [dsLoop, condLoop_files_map, ih]

theorem dsLoop_files_pure (es : List Entry) :
    ∀ (idx : Nat) (r : RNG),
      (dsLoop es idx r).1.2 = dsFiles (es.map (fun e => (e.type, e.inst))) idx := by
  induction es with
  | nil => intro idx r; rfl
  | cons e es ih =>
    intro idx r
    simp [dsLoop, dsFiles, condLoop_files_pure, condLoop_idx, ih, conditions_length]

theorem dsLoop_rows_assoc (es : List Entry) :
    ∀ (idx : Nat) (r : RNG), ∀ row ∈ (dsLoop es idx r).1.1, ∃ e ∈ es,
      row.trialType = e.type.label ∧ row.inst = e.inst ∧
      row.varL = sampleVar e.left ∧ row.varR = sampleVar e.right ∧
      row.moreVar = moreVariable (sampleVar e.left) (sampleVar e.right) := by
  induction es with
  | nil => intro idx r row hrow; simp [dsLoop] at hrow
  | cons e es ih =>
    intro idx r row hrow
    simp only [dsLoop, List.mem_append] at hrow
    rcases hrow with hrow | hrow
    · obtain ⟨h1, h2, h3, h4, h5⟩ := condLoop_rows_fields e.type e.inst e.left e.right
        (sampleVar e.left) (sampleVar e.right)
        (moreVariable (sampleVar e.left) (sampleVar e.right)) conditions idx r row hrow
      exact ⟨e, List.mem_cons_self e es, h1, h2, h3, h4, h5⟩
    · obtain ⟨e2, he2, hs⟩ := ih _ _ row hrow
      exact ⟨e2, List.mem_cons_of_mem e he2, hs⟩

theorem runDataSets_def (gam : ℚ → ℚ) (u : Nat → ℚ) :
    runDataSets gam u = (gen_data_sets gam ⟨u, 0⟩).1 := rfl

theorem runRows_def (gam : ℚ → ℚ) (u : Nat → ℚ) :
    runRows gam u = (dsLoop (gen_data_sets gam ⟨u, 0⟩).1 1 (gen_data_sets gam ⟨u, 0⟩).2).1.1 := rfl

theorem runFiles_def (gam : ℚ → ℚ) (u : Nat → ℚ) :
    runFiles gam u = (dsLoop (gen_data_sets gam ⟨u, 0⟩).1 1 (gen_data_sets gam ⟨u, 0⟩).2).1.2 := rfl

theorem gen_data_sets_def (gam : ℚ → ℚ) (r : RNG) :
    gen_data_sets gam r = statefulMap (genOne gam) allKeys r := rfl

theorem allKeys_length : allKeys.length = 16 := rfl

theorem allKeys_nodup : allKeys.Nodup := by decide

theorem runDataSets_keys (gam : ℚ → ℚ) (u : Nat → ℚ) :
    (runDataSets gam u).map (fun e => (e.type, e.inst)) = allKeys := by
  rw [runDataSets_def, gen_data_sets_def]
  exact statefulMap_map_key (genOne gam) (fun e => (e.type, e.inst))
    (fun a r => rfl) allKeys ⟨u, 0⟩

theorem runDataSets_length (gam : ℚ → ℚ) (u : Nat → ℚ) :
    (runDataSets gam u).length = 16 := by
  rw [runDataSets_def, gen_data_sets_def]
  rw [statefulMap_length (genOne gam) allKeys ⟨u, 0⟩]
  rfl

theorem runDataSets_mem (gam : ℚ → ℚ) (u : Nat → ℚ) :
    ∀ e ∈ runDataSets gam u, ∃ k ∈ allKeys, ∃ s : RNG, e = (genOne gam k s).1 := by
  intro e he
  rw [runDataSets_def, gen_data_sets_def] at he
  exact statefulMap_mem (genOne gam) allKeys ⟨u, 0⟩ e he

theorem runRows_idx_range (gam : ℚ → ℚ) (u : Nat → ℚ) :
    (runRows gam u).map Row.idx = List.range' 1 128 := by
  have h := dsLoop_rows_idx (gen_data_sets gam ⟨u, 0⟩).1 1 (gen_data_sets gam ⟨u, 0⟩).2
  have hl : (gen_data_sets gam ⟨u, 0⟩).1.length = 16 := runDataSets_length gam u
  rw [hl] at h
  rw [runRows_def]
  simpa using h

theorem runRows_length (gam : ℚ → ℚ) (u : Nat → ℚ) :
    (runRows gam u).length = 128 := by
  have h := congrArg List.length (runRows_idx_range gam u)
  simpa using h

theorem runFiles_map (gam : ℚ → ℚ) (u : Nat → ℚ) :
    runFiles gam u = (runRows gam u).map rowFilename := by
  rw [runFiles_def, runRows_def]
  exact dsLoop_files_map (gen_data_sets gam ⟨u, 0⟩).1 1 (gen_data_sets gam ⟨u, 0⟩).2

set_option maxRecDepth 100000 in
set_option maxHeartbeats 2000000 in
theorem dsFiles_concrete : dsFiles allKeys 1 = filesList := by decide

theorem runFiles_concrete (gam : ℚ → ℚ) (u : Nat → ℚ) : runFiles gam u = filesList := by
  have h := dsLoop_files_pure (gen_data_sets gam ⟨u, 0⟩).1 1 (gen_data_sets gam ⟨u, 0⟩).2
  have hk : (gen_data_sets gam ⟨u, 0⟩).1.map (fun e => (e.type, e.inst)) = allKeys :=
    runDataSets_keys gam u
  rw [hk, dsFiles_concrete] at h
  rw [runFiles_def, h]

set_option maxRecDepth 100000 in
set_option maxHeartbeats 2000000 in
theorem filesList_nodup : filesList.Nodup := by decide

theorem runRows_assoc (gam : ℚ → ℚ) (u : Nat → ℚ) :
    ∀ row ∈ runRows gam u, ∃ e ∈ runDataSets gam u,
      row.trialType = e.type.label ∧ row.inst = e.inst ∧
      row.varL = sampleVar e.left ∧ row.varR = sampleVar e.right ∧
      row.moreVar = moreVariable (sampleVar e.left) (sampleVar e.right) := by
  intro row hrow
  rw [runRows_def] at hrow
  obtain ⟨e, he, hs⟩ :=
    dsLoop_rows_assoc (gen_data_sets gam ⟨u, 0⟩).1 1 (gen_data_sets gam ⟨u, 0⟩).2 row hrow
  exact ⟨e, by rw [runDataSets_def]; exact he, hs⟩

theorem sampleVar_eq_spec (xs : List ℚ) : sampleVar xs = specSampleVar xs := rfl

theorem sampleVar_nonneg (xs : List ℚ) : 0 ≤ sampleVar xs := by
  rcases xs with _ | ⟨a, as⟩
  · simp [sampleVar, sumSqDevFrom]
  · apply div_nonneg
    · apply List.sum_nonneg
      intro x hx
      simp only [List.mem_map] at hx
      obtain ⟨y, _, hy⟩ := hx
      rw [← hy]
      positivity
    · simp only [List.length_cons]
      push_cast
      linarith [Nat.cast_nonneg (α := ℚ) as.length]

theorem isqrtIter_eq (n : Nat) :
    ∀ (fuel guess : Nat), guess ≤ fuel → isqrtIter n fuel guess = Nat.sqrt.iter n guess := by
  intro fuel
  induction fuel with
  | zero =>
    intro guess hg
    interval_cases guess
    rw [isqrtIter, Nat.sqrt.iter]
    simp
  | succ fuel ih =>
    intro guess hg
    rw [isqrtIter, Nat.sqrt.iter]
    by_cases h : (guess + n / guess) / 2 < guess
    · simp only [if_pos h, dif_pos h]
      exact ih _ (by omega)
    · simp only [if_neg h, dif_neg h]

theorem isqrt_eq_sqrt (n : Nat) : isqrt n = Nat.sqrt n := by
  rw [isqrt, Nat.sqrt]
  by_cases h : n ≤ 1
  · simp [h]
  · simp only [if_neg h]
    exact isqrtIter_eq n n (n / 2) (Nat.div_le_self n 2)

theorem nat_sqrt_floor (y : ℝ) (hy : 0 ≤ y) :
    Nat.sqrt ⌊y⌋₊ = ⌊Real.sqrt y⌋₊ := by
  apply le_antisymm
  · apply Nat.le_floor
    rw [Real.le_sqrt (by positivity) hy]
    calc ((Nat.sqrt ⌊y⌋₊ : ℝ)) ^ 2
        = ((Nat.sqrt ⌊y⌋₊ * Nat.sqrt ⌊y⌋₊ : ℕ) : ℝ) := by push_cast; ring
      _ ≤ (⌊y⌋₊ : ℝ) := by exact_mod_cast Nat.sqrt_le ⌊y⌋₊
      _ ≤ y := Nat.floor_le hy
  · rw [Nat.le_sqrt]
    apply Nat.le_floor
    calc ((⌊Real.sqrt y⌋₊ * ⌊Real.sqrt y⌋₊ : ℕ) : ℝ)
        = (⌊Real.sqrt y⌋₊ : ℝ) * (⌊Real.sqrt y⌋₊ : ℝ) := by push_cast; ring
      _ ≤ Real.sqrt y * Real.sqrt y := by
          have h := Nat.floor_le (Real.sqrt_nonneg y)
          exact mul_le_mul h h (by positivity) (Real.sqrt_nonneg y)
      _ = y := Real.mul_self_sqrt hy

theorem rat_floor_eq (q : ℚ) : q.floor = ⌊q⌋ := by
  rw [Rat.floor_def', Rat.floor_def]

theorem sdMilli_char (v : ℚ) (hv : 0 ≤ v) :
    sdMilli v = ⌊1000 * Real.sqrt (v : ℝ) + 1/2⌋₊ := by
  have hvr : (0 : ℝ) ≤ (v : ℝ) := by exact_mod_cast hv
  have h4 : (0 : ℝ) ≤ ((4000000 * v : ℚ) : ℝ) := by positivity
  have hf : (4000000 * v).floor.toNat = ⌊((4000000 * v : ℚ) : ℝ)⌋₊ := by
    rw [rat_floor_eq, ← Rat.floor_cast (α := ℝ), Int.floor_toNat]
  have e2 : Real.sqrt ((4000000 * v : ℚ) : ℝ) = 2000 * Real.sqrt (v : ℝ) := by
    push_cast
    rw [show (4000000 : ℝ) * (v : ℝ) = 2000 ^ 2 * (v : ℝ) from by ring]
    rw [Real.sqrt_mul (by positivity) _]
    rw [Real.sqrt_sq (by norm_num : (0 : ℝ) ≤ 2000)]
  rw [sdMilli, isqrt_eq_sqrt, hf, nat_sqrt_floor _ h4, e2]
  have e3 : (1000 : ℝ) * Real.sqrt (v : ℝ) + 1/2 = (2000 * Real.sqrt (v : ℝ) + 1) / 2 := by
    ring
  rw [e3]
  rw [show ((2 : ℝ)) = ((2 : ℕ) : ℝ) from by norm_num]
  rw [Nat.floor_div_nat]
  rw [Nat.floor_add_one (by positivity)]

theorem moreVariable_char (vl vr : ℚ) (hl : 0 ≤ vl) (hr : 0 ≤ vr) :
    (moreVariable vl vr = "Left" ↔ Real.sqrt (vr : ℝ) < Real.sqrt (vl : ℝ)) ∧
    (moreVariable vl vr = "Right" ↔ Real.sqrt (vl : ℝ) < Real.sqrt (vr : ℝ)) ∧
    (moreVariable vl vr = "Equal" ↔ Real.sqrt (vl : ℝ) = Real.sqrt (vr : ℝ)) := by
  have hlr : (0 : ℝ) ≤ (vl : ℝ) := by exact_mod_cast hl
  have hrr : (0 : ℝ) ≤ (vr : ℝ) := by exact_mod_cast hr
  have hlt : Real.sqrt (vr : ℝ) < Real.sqrt (vl : ℝ) ↔ vr < vl := by
    rw [Real.sqrt_lt_sqrt_iff hrr]
    exact_mod_cast Iff.rfl
  have hgt : Real.sqrt (vl : ℝ) < Real.sqrt (vr : ℝ) ↔ vl < vr := by
    rw [Real.sqrt_lt_sqrt_iff hlr]
    exact_mod_cast Iff.rfl
  have heq : Real.sqrt (vl : ℝ) = Real.sqrt (vr : ℝ) ↔ vl = vr := by
    rw [Real.sqrt_inj hlr hrr]
    exact_mod_cast Iff.rfl
  rw [hlt, hgt, heq, moreVariable]
  rcases lt_trichotomy vl vr with h | h | h
  · rw [if_neg (by linarith), if_pos h]
    refine ⟨?_, ?_, ?_⟩ <;> constructor <;> intro hx
    · exact absurd hx (by decide)
    · linarith
    · exact h
    · rfl
    · exact absurd hx (by decide)
    · linarith
  · rw [if_neg (by linarith), if_neg (by linarith)]
    refine ⟨?_, ?_, ?_⟩ <;> constructor <;> intro hx
    · exact absurd hx (by decide)
    · linarith
    · exact absurd hx (by decide)
    · linarith
    · exact h
    · rfl
  · rw [if_pos h]
    refine ⟨?_, ?_, ?_⟩ <;> constructor <;> intro hx
    · exact h
    · rfl
    · exact absurd hx (by decide)
    · linarith
    · exact absurd hx (by decide)
    · linarith

theorem label_inj : ∀ a b : TrialType, a.label = b.label → a = b := by
  intro a b
  cases a <;> cases b <;> intro h <;> first
    | rfl
    | exact absurd h (by decide)

theorem genOne_data (gam : ℚ → ℚ) (k : TrialType × Nat) (s : RNG) :
    ((genOne gam k s).1.left = (generate_trial_data gam k.1 s).1.1 ∧
     (genOne gam k s).1.right = (generate_trial_data gam k.1 s).1.2) ∨
    ((genOne gam k s).1.left = (generate_trial_data gam k.1 s).1.2 ∧
     (genOne gam k s).1.right = (generate_trial_data gam k.1 s).1.1) := by
  simp only [genOne]
  split_ifs with h
  · right
    exact ⟨rfl, rfl⟩
  · left
    exact ⟨rfl, rfl⟩

theorem generate_unequal_lengths (gam : ℚ → ℚ) (s : RNG) :
    (generate_trial_data gam TrialType.unequalSampleSize s).1.1.length = 80 ∧
    (generate_trial_data gam TrialType.unequalSampleSize s).1.2.length = 20 := by
  constructor <;> simp [generate_trial_data, npNormal, drawN]

theorem generate_outlier_shape (gam : ℚ → ℚ) (s : RNG) :
    (∃ b : List ℚ, (generate_trial_data gam TrialType.outlierVsNoOutlier s).1.1
        = b ++ [13, 15, -3, -5, 17] ∧ b.length = 50) ∧
    (generate_trial_data gam TrialType.outlierVsNoOutlier s).1.1.length = 55 ∧
    (generate_trial_data gam TrialType.outlierVsNoOutlier s).1.2.length = 50 := by
  refine ⟨⟨(npNormal 5 1 50 s).1, ?_, ?_⟩, ?_, ?_⟩
  · show (npNormal 5 1 50 s).1 ++ [5 + 8, 5 + 10, 5 - 8, 5 - 10, 5 + 12]
        = (npNormal 5 1 50 s).1 ++ [13, 15, -3, -5, 17]
    norm_num
  · simp [npNormal, drawN]
  · simp [generate_trial_data, npNormal, drawN]
  · simp [generate_trial_data, npNormal, drawN]

set_option maxRecDepth 400000 in
theorem pad3_length : ∀ n < 1000, (pad3 n).length = 3 := by decide

section Claims

attribute [local semireducible] Rat.add Rat.mul Rat.inv Rat.sub Rat.ofScientific

set_option maxRecDepth 400000

/-- C1: for a fixed seed (the shared pseudo-random stream, modelled here by
the raw-draw function `u` together with the abstract gamma sampler `gam`,
is seeded exactly once at process start), any two runs of the generator
produce byte-identical CSV content (header and all data rows, with the
formatted 3-decimal statistics), identical per-trial summary statistics and
identical image filenames: the whole output is a deterministic function of
the seeded stream alone. -/
theorem C1_deterministic (gam1 gam2 : ℚ → ℚ) (u1 u2 : Nat → ℚ)
    (hg : gam1 = gam2) (hu : u1 = u2) :
    csvTable gam1 u1 = csvTable gam2 u2 ∧ runRows gam1 u1 = runRows gam2 u2 ∧
      runFiles gam1 u1 = runFiles gam2 u2 := by
  subst hg
  subst hu
  exact ⟨rfl, rfl, rfl⟩

/-- Witness for C1 at the concrete all-zero stream. -/
theorem C1_witness :
    csvTable gam0 u0 = csvTable gam0 u0 ∧ runRows gam0 u0 = runRows gam0 u0 ∧
      runFiles gam0 u0 = runFiles gam0 u0 :=
  C1_deterministic gam0 gam0 u0 u0 rfl rfl

/-- C2, counterexample: the claim as stated — `More_Variable` is `"Left"` iff
the recorded 3-decimal `Left_SD` exceeds the recorded 3-decimal `Right_SD`,
`"Right"` iff conversely, `"Equal"` otherwise, tie-broken on exact equality
of the recorded values — fails on the concrete stream `cu`: its first row has
exact standard deviations `1.0004 > 1.0001`, so the source labels it
`"Left"`, yet both recorded values print as `1.000` (`sdMilli` 1000 on both
sides).  Recorded values are compared through their thousandths integers
`Row.leftSD` / `Row.rightSD`, which order exactly like the printed numeric
strings. -/
theorem C2_counterexample :
    ¬ (∀ row ∈ runRows gam0 cu,
      (row.moreVar = "Left" ↔ row.rightSD < row.leftSD) ∧
      (row.moreVar = "Right" ↔ row.leftSD < row.rightSD) ∧
      (row.moreVar = "Equal" ↔ row.leftSD = row.rightSD)) := by
  decide

/-- C2, amended: for every CSV row, `More_Variable` equals `"Left"` iff the
exact (full-precision, unrounded) left sample standard deviation exceeds the
exact right one, `"Right"` iff conversely, and `"Equal"` iff they are exactly
equal; the comparison is NOT performed on the recorded 3-decimal values,
which may coincide while the label is `"Left"` or `"Right"`. -/
theorem C2_label_from_exact_sd (gam : ℚ → ℚ) (u : Nat → ℚ) :
    ∀ row ∈ runRows gam u,
      (row.moreVar = "Left" ↔ Real.sqrt (row.varR : ℝ) < Real.sqrt (row.varL : ℝ)) ∧
      (row.moreVar = "Right" ↔ Real.sqrt (row.varL : ℝ) < Real.sqrt (row.varR : ℝ)) ∧
      (row.moreVar = "Equal" ↔ Real.sqrt (row.varL : ℝ) = Real.sqrt (row.varR : ℝ)) := by
  intro row hrow
  obtain ⟨e, he, h1, h2, h3, h4, h5⟩ := runRows_assoc gam u row hrow
  rw [h3, h4, h5]
  exact moreVariable_char _ _ (sampleVar_nonneg _) (sampleVar_nonneg _)

/-- Witness for the amended C2 at the first row of the all-zero run. -/
theorem C2_witness :
    (row0.moreVar = "Left" ↔ Real.sqrt (row0.varR : ℝ) < Real.sqrt (row0.varL : ℝ)) ∧
    (row0.moreVar = "Right" ↔ Real.sqrt (row0.varL : ℝ) < Real.sqrt (row0.varR : ℝ)) ∧
    (row0.moreVar = "Equal" ↔ Real.sqrt (row0.varL : ℝ) = Real.sqrt (row0.varR : ℝ)) :=
  C2_label_from_exact_sd gam0 u0 row0 (by decide)

/-- C3, counterexample: the claim that the "Unequal Sample Size" recipe draws
both sequences from normal distributions with the SAME spread parameter is
false: no single `sigma` reproduces `generate_trial_data` on that branch,
because the source uses spread `1.0` for the 80-sample sequence and `1.2`
for the 20-sample sequence. -/
theorem C3_counterexample :
    ¬ ∃ sigma : ℚ, ∀ r : RNG,
      generate_trial_data gam0 TrialType.unequalSampleSize r = unequalSpecGen sigma r := by
  rintro ⟨sigma, h⟩
  have h1 := h ⟨fun _ => 1, 0⟩
  have hL := congrArg (fun p => p.1.1) h1
  have hR := congrArg (fun p => p.1.2) h1
  simp only [generate_trial_data, unequalSpecGen, npNormal, drawN] at hL hR
  rw [List.map_inj_left] at hL hR
  have e1 := hL 1 (by simp)
  have e2 := hR 1 (by simp)
  norm_num at e1 e2
  linarith

/-- C3, amended: for every "Unequal Sample Size" trial, both sequences are
drawn from normal distributions with the same mean but DIFFERENT spread
parameters — `1.0` for the 80-sample sequence and `1.2` for the 20-sample
sequence — and unequal counts (80 vs 20). -/
theorem C3_amended_spreads (gam : ℚ → ℚ) (r : RNG) :
    generate_trial_data gam TrialType.unequalSampleSize r = unequalAmendedGen r := rfl

/-- C4: the CSV contains exactly 4 x 4 x 8 = 128 data rows (129 lines with
the header), and the `TrialIdx` column over the whole run is the contiguous
sequence 1..128 — it starts at 1, increases by 1 with every row, and has no
duplicates, gaps, or reuse. -/
theorem C4_row_count_and_indices (gam : ℚ → ℚ) (u : Nat → ℚ) :
    (runRows gam u).length = 128 ∧ (runRows gam u).map Row.idx = List.range' 1 128 ∧
      (csvTable gam u).length = 129 := by
  refine ⟨runRows_length gam u, runRows_idx_range gam u, ?_⟩
  simp [csvTable, runRows_length gam u]

/-- C5: any two CSV rows belonging to the same Data Set (same trial type and
instance index) carry the same exact sample variances and hence identical
recorded `Left_SD` and `Right_SD` values: the statistics are computed once
per Data Set and reused for each of its 8 condition rows. -/
theorem C5_sd_shared_per_data_set (gam : ℚ → ℚ) (u : Nat → ℚ) (r1 r2 : Row)
    (h1 : r1 ∈ runRows gam u) (h2 : r2 ∈ runRows gam u)
    (ht : r1.trialType = r2.trialType) (hi : r1.inst = r2.inst) :
    r1.varL = r2.varL ∧ r1.varR = r2.varR ∧
      r1.leftSD = r2.leftSD ∧ r1.rightSD = r2.rightSD := by
  obtain ⟨e1, he1, a1, b1, c1, d1, _⟩ := runRows_assoc gam u r1 h1
  obtain ⟨e2, he2, a2, b2, c2, d2, _⟩ := runRows_assoc gam u r2 h2
  have hkey : (fun e : Entry => (e.type, e.inst)) e1 = (fun e : Entry => (e.type, e.inst)) e2 := by
    have htype : e1.type = e2.type := label_inj _ _ (by rw [← a1, ← a2, ht])
    have hinst : e1.inst = e2.inst := by rw [← b1, ← b2, hi]
    simp [htype, hinst]
  have hnodup : ((runDataSets gam u).map (fun e => (e.type, e.inst))).Nodup := by
    rw [runDataSets_keys]
    exact allKeys_nodup
  have he : e1 = e2 := List.inj_on_of_nodup_map hnodup he1 he2 hkey
  subst he
  refine ⟨by rw [c1, c2], by rw [d1, d2], ?_, ?_⟩
  · rw [Row.leftSD, Row.leftSD, c1, c2]
  · rw [Row.rightSD, Row.rightSD, d1, d2]

/-- Witness for C5 at the first row of the all-zero run. -/
theorem C5_witness :
    row0.varL = row0.varL ∧ row0.varR = row0.varR ∧
      row0.leftSD = row0.leftSD ∧ row0.rightSD = row0.rightSD :=
  C5_sd_shared_per_data_set gam0 u0 row0 row0 (by decide) (by decide) rfl rfl

/-- C6: for every "Unequal Sample Size" data set, regardless of whether the
50%-probability left/right swap occurred, one stored sequence has exactly 80
values and the other exactly 20. -/
theorem C6_unequal_sample_sizes (gam : ℚ → ℚ) (u : Nat → ℚ) (e : Entry)
    (he : e ∈ runDataSets gam u) (ht : e.type = TrialType.unequalSampleSize) :
    (e.left.length = 80 ∧ e.right.length = 20) ∨
      (e.left.length = 20 ∧ e.right.length = 80) := by
  obtain ⟨k, hk, s, hs⟩ := runDataSets_mem gam u e he
  have htt : k.1 = TrialType.unequalSampleSize := by
    rw [hs] at ht
    exact ht
  have hlen := generate_unequal_lengths gam s
  rcases genOne_data gam k s with ⟨hL, hR⟩ | ⟨hL, hR⟩
  · left
    rw [hs, hL, hR, htt]
    exact hlen
  · right
    rw [hs, hL, hR, htt]
    exact ⟨hlen.2, hlen.1⟩

/-- Witness for C6 at the first "Unequal Sample Size" data set of the
all-zero run. -/
theorem C6_witness :
    (entryUnequal0.left.length = 80 ∧ entryUnequal0.right.length = 20) ∨
      (entryUnequal0.left.length = 20 ∧ entryUnequal0.right.length = 80) :=
  C6_unequal_sample_sizes gam0 u0 entryUnequal0 (by decide) rfl

/-- C7: for every "Outlier vs No-Outlier" data set, regardless of the
left/right swap, one stored sequence has exactly 55 values — 50 base normal
draws with the five fixed extreme offsets `[13, 15, -3, -5, 17]`
(`mu±offset` for `mu = 5`) appended — and the other exactly 50. -/
theorem C7_outlier_sizes (gam : ℚ → ℚ) (u : Nat → ℚ) (e : Entry)
    (he : e ∈ runDataSets gam u) (ht : e.type = TrialType.outlierVsNoOutlier) :
    (e.left.length = 55 ∧ e.right.length = 50 ∧
      ∃ b : List ℚ, e.left = b ++ [13, 15, -3, -5, 17] ∧ b.length = 50) ∨
    (e.right.length = 55 ∧ e.left.length = 50 ∧
      ∃ b : List ℚ, e.right = b ++ [13, 15, -3, -5, 17] ∧ b.length = 50) := by
  obtain ⟨k, hk, s, hs⟩ := runDataSets_mem gam u e he
  have htt : k.1 = TrialType.outlierVsNoOutlier := by
    rw [hs] at ht
    exact ht
  obtain ⟨⟨b, hb, hb50⟩, h55, h50⟩ := generate_outlier_shape gam s
  rcases genOne_data gam k s with ⟨hL, hR⟩ | ⟨hL, hR⟩
  · left
    rw [hs, hL, hR, htt]
    exact ⟨h55, h50, b, hb, hb50⟩
  · right
    rw [hs, hL, hR, htt]
    exact ⟨h55, h50, b, hb, hb50⟩

/-- Witness for C7 at the first "Outlier vs No-Outlier" data set of the
all-zero run. -/
theorem C7_witness :
    (entryOutlier0.left.length = 55 ∧ entryOutlier0.right.length = 50 ∧
      ∃ b : List ℚ, entryOutlier0.left = b ++ [13, 15, -3, -5, 17] ∧ b.length = 50) ∨
    (entryOutlier0.right.length = 55 ∧ entryOutlier0.left.length = 50 ∧
      ∃ b : List ℚ, entryOutlier0.right = b ++ [13, 15, -3, -5, 17] ∧ b.length = 50) :=
  C7_outlier_sizes gam0 u0 entryOutlier0 (by decide) rfl

/-- C8: every CSV row records as `Left_SD` / `Right_SD` exactly the sample
(unbiased, `n - 1` denominator) standard deviations of its data set's stored
sequences, rounded to thousandths — `sdMilli` of the spec's sample variance
is precisely the integer nearest to `1000 * sqrt(variance)` — and `fmt3`
prints the value with exactly 3 decimal digits after the dot. -/
theorem C8_recorded_sample_sd :
    (∀ (gam : ℚ → ℚ) (u : Nat → ℚ), ∀ row ∈ runRows gam u, ∃ e ∈ runDataSets gam u,
      row.trialType = e.type.label ∧ row.inst = e.inst ∧
      row.leftSD = sdMilli (specSampleVar e.left) ∧
      row.rightSD = sdMilli (specSampleVar e.right)) ∧
    (∀ v : ℚ, 0 ≤ v → sdMilli v = ⌊1000 * Real.sqrt (v : ℝ) + 1/2⌋₊) ∧
    (∀ m : Nat, fmt3 m = toString (m / 1000) ++ "." ++ pad3 (m % 1000) ∧
      (pad3 (m % 1000)).length = 3) := by
  refine ⟨?_, sdMilli_char, ?_⟩
  · intro gam u row hrow
    obtain ⟨e, he, h1, h2, h3, h4, _⟩ := runRows_assoc gam u row hrow
    refine ⟨e, he, h1, h2, ?_, ?_⟩
    · rw [Row.leftSD, h3, sampleVar_eq_spec]
    · rw [Row.rightSD, h4, sampleVar_eq_spec]
  · intro m
    exact ⟨rfl, pad3_length (m % 1000) (Nat.mod_lt m (by norm_num))⟩

/-- Witness for C8: its first part at the first row of the all-zero run, its
rounding characterisation at `v = 9` (`sdMilli 9 = 3000`), and the 3-decimal
format shape at `m = 42`. -/
theorem C8_witness :
    (∃ e ∈ runDataSets gam0 u0,
      row0.trialType = e.type.label ∧ row0.inst = e.inst ∧
      row0.leftSD = sdMilli (specSampleVar e.left) ∧
      row0.rightSD = sdMilli (specSampleVar e.right)) ∧
    sdMilli 9 = ⌊1000 * Real.sqrt ((9 : ℚ) : ℝ) + 1/2⌋₊ ∧
    fmt3 42 = toString (42 / 1000) ++ "." ++ pad3 (42 % 1000) ∧
      (pad3 (42 % 1000)).length = 3 :=
  ⟨C8_recorded_sample_sd.1 gam0 u0 row0 (by decide),
   C8_recorded_sample_sd.2.1 9 (by norm_num),
   C8_recorded_sample_sd.2.2 42⟩

/-- C9: every rendered trial's output filename follows the grammar
`{index}_{trial type, spaces to underscores}_{jitter, spaces removed}_{whisker}_{points, spaces removed}.png`
applied to its CSV row's fields, and — the trial index being globally
unique — no two trials of a run produce the same filename. -/
theorem C9_filename_grammar_unique (gam : ℚ → ℚ) (u : Nat → ℚ) :
    runFiles gam u = (runRows gam u).map rowFilename ∧ (runFiles gam u).Nodup := by
  refine ⟨runFiles_map gam u, ?_⟩
  rw [runFiles_concrete gam u]
  exact filesList_nodup

/-- C10: `extract_element_ids` returns the empty list whenever the file
cannot be opened or read (the `try`/`except` catches every exception raised
while reading); a read failure is never propagated to the caller — the
embedded function is total and yields `[]` on every `Except.error` outcome,
for any behavior of the downstream parser. -/
theorem C10_read_failure_empty (parse : String → List String)
    (res : Except String String) (h : ∃ msg : String, res = Except.error msg) :
    extract_element_ids parse res = [] := by
  obtain ⟨msg, rfl⟩ := h
  rfl

/-- Witness for C10 at a concrete failing read. -/
theorem C10_witness :
    extract_element_ids (fun _ => []) (Except.error (toString 42)) = [] :=
  C10_read_failure_empty (fun _ => []) (Except.error (toString 42)) ⟨toString 42, rfl⟩

end Claims

end Boxplot
